import Mathlib

/-!
Verification of the overmind diary backend's business rules against its
specification.  The Python sources are shallowly embedded: database rows
become structures, tables become lists, `scalar_one_or_none` lookups become
`List.find?`, and the upstream AI HTTP calls become explicit oracle
arguments (`Except Unit String`): an `.ok` value is the text a provider
returned, `.error` stands for the timeout / HTTP / connection failures the
call sites catch.
-/

namespace Overmind

/-- Subscription tier enum (`app/models/subscription.py`, `SubscriptionTier`). -/
inductive SubscriptionTier where
  | FREE
  | PREMIUM
  deriving DecidableEq, BEq

/-- Profile row as consumed by the model selector (`app/models/user.py`; the
`country` column is the one written by the signup flow in
`app/auth/services/auth.py` — `Profile(user_id=user.id, country=country)` —
and read by `AIModelSelector.get_model_for_user`; only the fields the
selector consults are carried, a `none` country models SQL NULL). -/
structure Profile where
  user_id : Nat
  country : Option String
  deriving DecidableEq

/-- Subscription row (`app/models/subscription.py`), selector-relevant fields. -/
structure Subscription where
  user_id : Nat
  tier : SubscriptionTier
  deriving DecidableEq

/-- `AIModelPriority` row (`app/models/ai_config.py`): provider priorities
keyed by (country, tier). -/
structure AIModelPriority where
  country : String
  tier : String
  priority_1 : String
  priority_2 : String
  priority_3 : String
  deriving DecidableEq

/-- The slice of the database the selector queries. -/
structure SelectorDB where
  profiles : List Profile
  subscriptions : List Subscription
  priorities : List AIModelPriority
  deriving DecidableEq

/-- `select(Profile).where(Profile.user_id == user_id)` + `scalar_one_or_none`. -/
def findProfile (db : SelectorDB) (uid : Nat) : Option Profile :=
  db.profiles.find? (fun p => p.user_id == uid)

/-- `select(Subscription).where(Subscription.user_id == user_id)`. -/
def findSubscription (db : SelectorDB) (uid : Nat) : Option Subscription :=
  db.subscriptions.find? (fun s => s.user_id == uid)

/-- `country = profile.country if profile and profile.country else "WW"`
(`model_selector.py` line 40); Python string truthiness makes both a missing
profile, a NULL country and an empty country fall back to `"WW"`. -/
def resolveCountry (profile : Option Profile) : String :=
  match profile.bind Profile.country with
  | some c => if c = "" then "WW" else c
  | none => "WW"

/-- `tier = "premium" if subscription and subscription.tier == PREMIUM else
"basic"` (`model_selector.py` line 49). -/
def resolveTier (sub : Option Subscription) : String :=
  match sub with
  | some s => if s.tier = SubscriptionTier.PREMIUM then "premium" else "basic"
  | none => "basic"

/-- `select(AIModelPriority).where(country == .., tier == ..)`. -/
def findPriorityRow (rows : List AIModelPriority) (country tier : String) :
    Option AIModelPriority :=
  rows.find? (fun r => r.country == country && r.tier == tier)

/-- The (country, tier) lookup followed by the `("WW", tier)` retry when the
first query returns nothing (`model_selector.py` lines 51–68). -/
def resolvedPriorityRows (rows : List AIModelPriority) (country tier : String) :
    Option AIModelPriority :=
  match findPriorityRow rows country tier with
  | some r => some r
  | none => findPriorityRow rows "WW" tier

/-- Steps 3–4 of `get_model_for_user`: resolve country and tier, then run the
priority lookup with its worldwide retry. -/
def resolvedPriority (db : SelectorDB) (uid : Nat) : Option AIModelPriority :=
  resolvedPriorityRows db.priorities (resolveCountry (findProfile db uid))
    (resolveTier (findSubscription db uid))

/-- Step 5: `priority.priority_1` when a row was found, else the hardcoded
default provider `"openai"` (`model_selector.py` lines 70–75). -/
def providerOf (o : Option AIModelPriority) : String :=
  match o with
  | some r => r.priority_1
  | none => "openai"

/-- The `model_map` dict of `model_selector.py` lines 78–82 together with the
`.get(provider, "gpt-4o-mini")` default of line 84.  (The source writes the
google_ai entry as the same string for both tiers.) -/
def modelMap (tier provider : String) : String :=
  if provider = "openai" then (if tier = "basic" then "gpt-4o-mini" else "gpt-4o")
  else if provider = "google_ai" then "gemini-2.0-flash-exp"
  else if provider = "claude" then
    (if tier = "basic" then "claude-haiku-4-5" else "claude-opus-4-5-20251101")
  else "gpt-4o-mini"

/-- `AIModelSelector.get_model_for_user` (`app/core/model_selector.py`). -/
def get_model_for_user (db : SelectorDB) (uid : Nat) : String × String :=
  let tier := resolveTier (findSubscription db uid)
  let provider := providerOf (resolvedPriority db uid)
  (provider, modelMap tier provider)

/-! ### Reference algorithm of claim C1

The reference definitions below are written from the specification's words,
not from `model_selector.py`; they only ever see `priority_1` of a priority
row (`PriorityView`), which is the spec's statement that `priority_2` and
`priority_3` never influence the result. -/

/-- A priority row as the spec's algorithm sees it: `priority_1` only. -/
structure PriorityView where
  country : String
  tier : String
  priority_1 : String
  deriving DecidableEq

/-- Forget `priority_2` / `priority_3` of a row. -/
def viewRow (r : AIModelPriority) : PriorityView :=
  ⟨r.country, r.tier, r.priority_1⟩

/-- Spec: country is the user's `Profile.country` when a profile with a
non-empty country exists, else `"WW"`. -/
def specCountry (profiles : List Profile) (uid : Nat) : String :=
  match (profiles.find? (fun p => p.user_id == uid)).bind Profile.country with
  | some c => if c ≠ "" then c else "WW"
  | none => "WW"

/-- Spec: tier is `"premium"` iff the user's subscription exists with tier
PREMIUM, else `"basic"`. -/
def specTier (subs : List Subscription) (uid : Nat) : String :=
  match subs.find? (fun s => s.user_id == uid) with
  | some s => if s.tier = SubscriptionTier.PREMIUM then "premium" else "basic"
  | none => "basic"

/-- Spec: provider is `priority_1` of the row for (country, tier) if one
exists, else `priority_1` of the row for ("WW", tier) if one exists, else the
hardcoded default `"openai"`. -/
def specProvider (rows : List PriorityView) (country tier : String) : String :=
  match rows.find? (fun r => r.country == country && r.tier == tier) with
  | some r => r.priority_1
  | none =>
      match rows.find? (fun r => r.country == "WW" && r.tier == tier) with
      | some r => r.priority_1
      | none => "openai"

/-- Spec: the hardcoded per-provider default model for the tier (openai:
`"gpt-4o-mini"` when basic, `"gpt-4o"` when premium; the other table entries
and the unknown-provider default are the spec's "hardcoded default model
string per provider and tier"). -/
def specDefaultModel (provider tier : String) : String :=
  if provider = "openai" then (if tier = "basic" then "gpt-4o-mini" else "gpt-4o")
  else if provider = "google_ai" then "gemini-2.0-flash-exp"
  else if provider = "claude" then
    (if tier = "basic" then "claude-haiku-4-5" else "claude-opus-4-5-20251101")
  else "gpt-4o-mini"

/-- C1's reference algorithm, assembled from the spec sentences. -/
def spec_get_model_for_user (profiles : List Profile) (subs : List Subscription)
    (rows : List PriorityView) (uid : Nat) : String × String :=
  let country := specCountry profiles uid
  let tier := specTier subs uid
  let provider := specProvider rows country tier
  (provider, specDefaultModel provider tier)

theorem viewRow_country (r : AIModelPriority) : (viewRow r).country = r.country := rfl

theorem viewRow_tier (r : AIModelPriority) : (viewRow r).tier = r.tier := rfl

theorem viewRow_priority_1 (r : AIModelPriority) :
    (viewRow r).priority_1 = r.priority_1 := rfl

theorem find?_map_viewRow (rows : List AIModelPriority) (p : PriorityView → Bool) :
    (rows.map viewRow).find? p = (rows.find? (fun r => p (viewRow r))).map viewRow := by
  induction rows with
  | nil => rfl
  | cons r rs ih =>
      simp only [List.map_cons, List.find?]
      cases h : p (viewRow r) <;> simp [h, ih]

theorem resolveCountry_eq_spec (db : SelectorDB) (uid : Nat) :
    resolveCountry (findProfile db uid) = specCountry db.profiles uid := by
  unfold resolveCountry specCountry findProfile
  cases h : (db.profiles.find? (fun p => p.user_id == uid)).bind Profile.country with
  | none => rfl
  | some c => by_cases hc : c = "" <;> simp [hc]

theorem tier_eq_spec (db : SelectorDB) (uid : Nat) :
    resolveTier (findSubscription db uid) = specTier db.subscriptions uid := rfl

theorem modelMap_eq_spec (tier provider : String) :
    modelMap tier provider = specDefaultModel provider tier := rfl

theorem provider_eq_spec (rows : List AIModelPriority) (country tier : String) :
    providerOf (resolvedPriorityRows rows country tier)
      = specProvider (rows.map viewRow) country tier := by
  unfold providerOf resolvedPriorityRows specProvider findPriorityRow
  rw [find?_map_viewRow, find?_map_viewRow]
  simp only [viewRow_country, viewRow_tier]
  cases h1 : rows.find? (fun r => r.country == country && r.tier == tier) with
  | some r => rfl
  | none =>
      cases h2 : rows.find? (fun r => r.country == "WW" && r.tier == tier) with
      | some r => rfl
      | none => rfl

/-- **C1.** `get_model_for_user` computes exactly the spec's reference
algorithm: country from the profile (default `"WW"`), tier from the
subscription (`"premium"` iff PREMIUM), provider from the (country, tier)
row's `priority_1`, else the ("WW", tier) row's `priority_1`, else
`"openai"`, and the hardcoded per-provider default model for the tier; and —
since the reference only sees each row through `viewRow` — `priority_2` and
`priority_3` of any row never influence the result. -/
theorem get_model_for_user_matches_reference :
    (∀ (db : SelectorDB) (uid : Nat),
        get_model_for_user db uid
          = spec_get_model_for_user db.profiles db.subscriptions
              (db.priorities.map viewRow) uid)
    ∧ (∀ (db db' : SelectorDB) (uid : Nat),
        db.profiles = db'.profiles →
        db.subscriptions = db'.subscriptions →
        db.priorities.map viewRow = db'.priorities.map viewRow →
        get_model_for_user db uid = get_model_for_user db' uid) := by
  have main : ∀ (db : SelectorDB) (uid : Nat),
      get_model_for_user db uid
        = spec_get_model_for_user db.profiles db.subscriptions
            (db.priorities.map viewRow) uid := by
    intro db uid
    simp only [get_model_for_user, spec_get_model_for_user, resolvedPriority]
    rw [resolveCountry_eq_spec db uid, tier_eq_spec db uid, provider_eq_spec,
      modelMap_eq_spec]
  refine ⟨main, ?_⟩
  intro db db' uid h1 h2 h3
  rw [main db uid, main db' uid, h1, h2, h3]

/-- Concrete database for the C1 witness: a single "WW"/"basic" row. -/
def dbWitnessA : SelectorDB :=
  { profiles := []
    subscriptions := []
    priorities := [⟨"WW", "basic", "openai", "claude", "google_ai"⟩] }

/-- Same database with different `priority_2` / `priority_3` values. -/
def dbWitnessB : SelectorDB :=
  { profiles := []
    subscriptions := []
    priorities := [⟨"WW", "basic", "openai", "google_ai", "claude"⟩] }

theorem get_model_for_user_matches_reference_witness :
    get_model_for_user dbWitnessA 1 = get_model_for_user dbWitnessB 1
      ∧ get_model_for_user dbWitnessA 1
          = spec_get_model_for_user dbWitnessA.profiles dbWitnessA.subscriptions
              (dbWitnessA.priorities.map viewRow) 1 :=
  ⟨get_model_for_user_matches_reference.2 dbWitnessA dbWitnessB 1 rfl rfl rfl,
   get_model_for_user_matches_reference.1 dbWitnessA 1⟩

/-- **C10.** When the resolved priority row's `priority_1` is not one of the
three providers of the `model_map` table, `get_model_for_user` returns that
string unchanged as the provider, paired with the `.get` fallback model
`"gpt-4o-mini"`, whatever the user's tier. -/
theorem unknown_provider_keeps_fallback_model :
    ∀ (db : SelectorDB) (uid : Nat) (row : AIModelPriority),
      resolvedPriority db uid = some row →
      row.priority_1 ≠ "openai" →
      row.priority_1 ≠ "google_ai" →
      row.priority_1 ≠ "claude" →
      get_model_for_user db uid = (row.priority_1, "gpt-4o-mini") := by
  intro db uid row hrow h1 h2 h3
  unfold get_model_for_user
  rw [hrow]
  simp only [modelMap, providerOf, if_neg h1, if_neg h2, if_neg h3]

/-- Concrete database for the C10 witness: the resolved row names the
provider `"mistral"`, unknown to the model table; here with a PREMIUM
subscription to exhibit tier-independence of the fallback model. -/
def dbWitnessC : SelectorDB :=
  { profiles := [⟨7, some "KR"⟩]
    subscriptions := [⟨7, SubscriptionTier.PREMIUM⟩]
    priorities := [⟨"KR", "premium", "mistral", "openai", "claude"⟩] }

theorem unknown_provider_keeps_fallback_model_witness :
    get_model_for_user dbWitnessC 7 = ("mistral", "gpt-4o-mini") :=
  unknown_provider_keeps_fallback_model dbWitnessC 7
    ⟨"KR", "premium", "mistral", "openai", "claude"⟩ rfl
    (by decide) (by decide) (by decide)

/-! ## Conversation quality gate

Embedding of `ConversationService.calculate_conversation_quality`
(`app/diary/services/conversation.py`).  Python floats (the multiplier, the
average length) are modelled by exact rationals; `int(...)` on the
non-negative products becomes `Int.floor` + `Int.toNat` (for the three
multipliers 0.7 / 1.0 / 1.5 used here the float and rational truncations
agree on every threshold). -/

/-- `MessageRole` enum (`app/models/diary.py`). -/
inductive MessageRole where
  | ai
  | user
  deriving DecidableEq

/-- Message row.  The `image_url` column is added to the `messages` table by
migration `alembic/versions/001_add_image_url_to_message.py` and is read by
the quality gate (`msg.image_url`) and written by
`ConversationService.send_message`. -/
structure Message where
  id : Nat
  conversation_id : Nat
  role : MessageRole
  content : String
  image_url : Option String
  deriving DecidableEq

/-- `QualityLevel` enum (`app/diary/services/conversation.py`). -/
inductive QualityLevel where
  | INSUFFICIENT
  | MINIMAL
  | GOOD
  | EXCELLENT
  deriving DecidableEq

/-- `ConversationQuality` dataclass. -/
structure ConversationQuality where
  user_message_count : Nat
  total_user_content_length : Nat
  avg_user_message_length : ℚ
  has_images : Bool
  quality_level : QualityLevel
  is_sufficient : Bool
  feedback_message : String
  required_messages : Nat
  required_total_length : Nat
  required_avg_length : Nat
  deriving DecidableEq

namespace QualityThresholds

def MIN_USER_MESSAGES : Nat := 3

def MIN_TOTAL_USER_CONTENT_LENGTH : Nat := 50

def MIN_AVG_USER_MESSAGE_LENGTH : Nat := 10

def GOOD_TOTAL_LENGTH : Nat := 200

def EXCELLENT_TOTAL_LENGTH : Nat := 300

def IMAGE_MESSAGE_DISCOUNT : Nat := 1

def SUMMARY_MULTIPLIER : ℚ := 7 / 10

def DETAILED_MULTIPLIER : ℚ := 3 / 2

end QualityThresholds

/-- `user_messages = [msg for msg in messages if msg.role == MessageRole.user]`. -/
def userMessagesOf (msgs : List Message) : List Message :=
  msgs.filter (fun m => m.role == MessageRole.user)

def userMsgCount (msgs : List Message) : Nat :=
  (userMessagesOf msgs).length

/-- `sum(len(msg.content) for msg in user_messages)`. -/
def totalUserLen (msgs : List Message) : Nat :=
  ((userMessagesOf msgs).map (fun m => m.content.length)).sum

/-- `total / count if count > 0 else 0.0`. -/
def avgUserLen (msgs : List Message) : ℚ :=
  if 0 < userMsgCount msgs then
    (totalUserLen msgs : ℚ) / (userMsgCount msgs : ℚ)
  else 0

/-- `any(msg.image_url is not None for msg in user_messages)`. -/
def hasImagesIn (msgs : List Message) : Bool :=
  (userMessagesOf msgs).any (fun m => m.image_url.isSome)

/-- The `{"summary": 0.7, "normal": 1.0, "detailed": 1.5}.get(length_type, 1.0)`
dict lookup. -/
def multiplierFor (length_type : String) : ℚ :=
  if length_type = "summary" then QualityThresholds.SUMMARY_MULTIPLIER
  else if length_type = "normal" then 1
  else if length_type = "detailed" then QualityThresholds.DETAILED_MULTIPLIER
  else 1

/-- `ConversationService._get_insufficient_feedback`. -/
def get_insufficient_feedback (current_messages required_messages
    current_length required_length : Nat) : String :=
  let issues : List String :=
    (if current_messages < required_messages then
        [toString (required_messages - current_messages) ++ "개의 메시지가 더 필요해요"]
      else []) ++
    (if current_length < required_length then ["조금 더 자세히 이야기해주세요"] else [])
  if issues = [] then "대화 내용이 좀 더 필요해요."
  else String.intercalate ", " issues ++ ". 더 이야기를 나눠볼까요?"

/-- Round-half-to-even on rationals, the idealization of Python's
`round(x, 1)` (the reported average only; no claim consults it). -/
def roundHalfEven (x : ℚ) : ℤ :=
  if x - ⌊x⌋ < 1 / 2 then ⌊x⌋
  else if 1 / 2 < x - ⌊x⌋ then ⌊x⌋ + 1
  else if ⌊x⌋ % 2 = 0 then ⌊x⌋ else ⌊x⌋ + 1

def round1 (x : ℚ) : ℚ := (roundHalfEven (10 * x) : ℚ) / 10

/-- `ConversationService.calculate_conversation_quality`, as a function of the
conversation's (ordered) messages and the `length_type`. -/
def calculate_conversation_quality (msgs : List Message) (length_type : String) :
    ConversationQuality :=
  let count := userMsgCount msgs
  let total := totalUserLen msgs
  let avg := avgUserLen msgs
  let hasImages := hasImagesIn msgs
  let multiplier := multiplierFor length_type
  let requiredMessagesRaw :=
    (⌊(QualityThresholds.MIN_USER_MESSAGES : ℚ) * multiplier⌋).toNat
  let required_total_length :=
    (⌊(QualityThresholds.MIN_TOTAL_USER_CONTENT_LENGTH : ℚ) * multiplier⌋).toNat
  let required_avg_length :=
    (⌊(QualityThresholds.MIN_AVG_USER_MESSAGE_LENGTH : ℚ) * multiplier⌋).toNat
  let required_messages :=
    if hasImages then
      max 1 (requiredMessagesRaw - QualityThresholds.IMAGE_MESSAGE_DISCOUNT)
    else requiredMessagesRaw
  let is_sufficient :=
    decide (required_messages ≤ count) && decide (required_total_length ≤ total)
      && decide ((required_avg_length : ℚ) ≤ avg)
  let quality_level :=
    if is_sufficient = false then QualityLevel.INSUFFICIENT
    else if QualityThresholds.EXCELLENT_TOTAL_LENGTH ≤ total then QualityLevel.EXCELLENT
    else if QualityThresholds.GOOD_TOTAL_LENGTH ≤ total then QualityLevel.GOOD
    else QualityLevel.MINIMAL
  let feedback_message :=
    if is_sufficient = false then
      get_insufficient_feedback count required_messages total required_total_length
    else if QualityThresholds.EXCELLENT_TOTAL_LENGTH ≤ total then
      "훌륭한 대화입니다! 풍부한 일기를 만들 수 있어요."
    else if QualityThresholds.GOOD_TOTAL_LENGTH ≤ total then
      "대화가 충분합니다! 일기를 생성할 수 있어요."
    else "일기를 만들 수 있지만, 조금 더 이야기하면 더욱 좋아요."
  { user_message_count := count
    total_user_content_length := total
    avg_user_message_length := round1 avg
    has_images := hasImages
    quality_level := quality_level
    is_sufficient := is_sufficient
    feedback_message := feedback_message
    required_messages := required_messages
    required_total_length := required_total_length
    required_avg_length := required_avg_length }

/-! Field-unfolding lemmas for the quality record. -/

theorem calc_required_messages (msgs : List Message) (lt : String) :
    (calculate_conversation_quality msgs lt).required_messages
      = (if hasImagesIn msgs then
          max 1 ((⌊(QualityThresholds.MIN_USER_MESSAGES : ℚ) * multiplierFor lt⌋).toNat
            - QualityThresholds.IMAGE_MESSAGE_DISCOUNT)
        else (⌊(QualityThresholds.MIN_USER_MESSAGES : ℚ) * multiplierFor lt⌋).toNat) := rfl

theorem calc_required_total (msgs : List Message) (lt : String) :
    (calculate_conversation_quality msgs lt).required_total_length
      = (⌊(QualityThresholds.MIN_TOTAL_USER_CONTENT_LENGTH : ℚ) * multiplierFor lt⌋).toNat :=
  rfl

theorem calc_required_avg (msgs : List Message) (lt : String) :
    (calculate_conversation_quality msgs lt).required_avg_length
      = (⌊(QualityThresholds.MIN_AVG_USER_MESSAGE_LENGTH : ℚ) * multiplierFor lt⌋).toNat :=
  rfl

theorem calc_count (msgs : List Message) (lt : String) :
    (calculate_conversation_quality msgs lt).user_message_count = userMsgCount msgs := rfl

theorem calc_total (msgs : List Message) (lt : String) :
    (calculate_conversation_quality msgs lt).total_user_content_length
      = totalUserLen msgs := rfl

theorem calc_is_sufficient (msgs : List Message) (lt : String) :
    (calculate_conversation_quality msgs lt).is_sufficient
      = (decide ((calculate_conversation_quality msgs lt).required_messages
            ≤ userMsgCount msgs)
        && decide ((calculate_conversation_quality msgs lt).required_total_length
            ≤ totalUserLen msgs)
        && decide (((calculate_conversation_quality msgs lt).required_avg_length : ℚ)
            ≤ avgUserLen msgs)) := rfl

theorem calc_quality_level (msgs : List Message) (lt : String) :
    (calculate_conversation_quality msgs lt).quality_level
      = (if (calculate_conversation_quality msgs lt).is_sufficient = false then
          QualityLevel.INSUFFICIENT
        else if QualityThresholds.EXCELLENT_TOTAL_LENGTH ≤ totalUserLen msgs then
          QualityLevel.EXCELLENT
        else if QualityThresholds.GOOD_TOTAL_LENGTH ≤ totalUserLen msgs then
          QualityLevel.GOOD
        else QualityLevel.MINIMAL) := rfl

theorem is_sufficient_iff (msgs : List Message) (lt : String) :
    (calculate_conversation_quality msgs lt).is_sufficient = true
      ↔ (calculate_conversation_quality msgs lt).required_messages ≤ userMsgCount msgs
        ∧ (calculate_conversation_quality msgs lt).required_total_length ≤ totalUserLen msgs
        ∧ ((calculate_conversation_quality msgs lt).required_avg_length : ℚ)
            ≤ avgUserLen msgs := by
  rw [calc_is_sufficient]
  simp [and_assoc]

theorem no_images_of_all_none (msgs : List Message)
    (himg : ∀ m ∈ msgs, m.role = MessageRole.user → m.image_url = none) :
    hasImagesIn msgs = false := by
  rw [hasImagesIn, List.any_eq_false]
  intro m hm
  rw [userMessagesOf, List.mem_filter] at hm
  have hrole : m.role = MessageRole.user := of_decide_eq_true hm.2
  rw [himg m hm.1 hrole]
  simp

theorem normal_required_no_images (msgs : List Message)
    (hni : hasImagesIn msgs = false) :
    (calculate_conversation_quality msgs "normal").required_messages = 3
    ∧ (calculate_conversation_quality msgs "normal").required_total_length = 50
    ∧ (calculate_conversation_quality msgs "normal").required_avg_length = 10 := by
  have hmult : multiplierFor "normal" = 1 := rfl
  refine ⟨?_, ?_, ?_⟩
  · rw [calc_required_messages, hni, hmult]
    norm_num [QualityThresholds.MIN_USER_MESSAGES]
    omega
  · rw [calc_required_total, hmult]
    norm_num [QualityThresholds.MIN_TOTAL_USER_CONTENT_LENGTH]
    omega
  · rw [calc_required_avg, hmult]
    norm_num [QualityThresholds.MIN_AVG_USER_MESSAGE_LENGTH]
    omega

/-- **C3.** For `length_type = "normal"` and a conversation whose user
messages carry no image, the thresholds are exactly 3 messages / 50 total
characters / 10 average characters over user messages, `is_sufficient` is
the conjunction of the three comparisons, 3 user messages with total ≥ 50
and average ≥ 10 are sufficient, and 2 user messages never are. -/
theorem quality_gate_normal_no_images (msgs : List Message)
    (himg : ∀ m ∈ msgs, m.role = MessageRole.user → m.image_url = none) :
    (calculate_conversation_quality msgs "normal").required_messages = 3
    ∧ (calculate_conversation_quality msgs "normal").required_total_length = 50
    ∧ (calculate_conversation_quality msgs "normal").required_avg_length = 10
    ∧ ((calculate_conversation_quality msgs "normal").is_sufficient = true
        ↔ 3 ≤ userMsgCount msgs ∧ 50 ≤ totalUserLen msgs
            ∧ (10 : ℚ) ≤ avgUserLen msgs)
    ∧ (userMsgCount msgs = 2 →
        (calculate_conversation_quality msgs "normal").is_sufficient = false) := by
  have hni : hasImagesIn msgs = false := no_images_of_all_none msgs himg
  obtain ⟨hr1, hr2, hr3⟩ := normal_required_no_images msgs hni
  have hiff : (calculate_conversation_quality msgs "normal").is_sufficient = true
      ↔ 3 ≤ userMsgCount msgs ∧ 50 ≤ totalUserLen msgs ∧ (10 : ℚ) ≤ avgUserLen msgs := by
    rw [is_sufficient_iff, hr1, hr2, hr3]
    norm_num
  refine ⟨hr1, hr2, hr3, hiff, ?_⟩
  intro h2
  by_contra hcon
  rw [Bool.not_eq_false] at hcon
  have := (hiff.mp hcon).1
  omega

/-- Three 20-character user messages: the C3 witness conversation. -/
def msgsW3 : List Message :=
  [⟨1, 1, MessageRole.ai, "hello there, how was your day?", none⟩,
   ⟨2, 1, MessageRole.user, "aaaaaaaaaaaaaaaaaaaa", none⟩,
   ⟨3, 1, MessageRole.user, "bbbbbbbbbbbbbbbbbbbb", none⟩,
   ⟨4, 1, MessageRole.user, "cccccccccccccccccccc", none⟩]

theorem quality_gate_normal_no_images_witness :
    (calculate_conversation_quality msgsW3 "normal").is_sufficient = true :=
  ((quality_gate_normal_no_images msgsW3 (by decide)).2.2.2.1).mpr
    ⟨by decide, by decide, by
      have hc : userMsgCount msgsW3 = 3 := by decide
      have ht : totalUserLen msgsW3 = 60 := by decide
      unfold avgUserLen
      rw [hc, ht]
      norm_num⟩

/-- **C5.** The quality level is `insufficient` exactly when the gate is not
sufficient; otherwise it is `excellent` iff the total user content length is
at least 300, `good` iff it lies in [200, 300), and `minimal` iff it is
below 200. -/
theorem quality_level_characterization (msgs : List Message) (lt : String) :
    ((calculate_conversation_quality msgs lt).quality_level = QualityLevel.INSUFFICIENT
      ↔ (calculate_conversation_quality msgs lt).is_sufficient = false)
    ∧ ((calculate_conversation_quality msgs lt).is_sufficient = true →
        ((calculate_conversation_quality msgs lt).quality_level = QualityLevel.EXCELLENT
          ↔ 300 ≤ totalUserLen msgs)
        ∧ ((calculate_conversation_quality msgs lt).quality_level = QualityLevel.GOOD
          ↔ 200 ≤ totalUserLen msgs ∧ totalUserLen msgs < 300)
        ∧ ((calculate_conversation_quality msgs lt).quality_level = QualityLevel.MINIMAL
          ↔ totalUserLen msgs < 200)) := by
  rw [calc_quality_level]
  unfold QualityThresholds.EXCELLENT_TOTAL_LENGTH QualityThresholds.GOOD_TOTAL_LENGTH
  constructor
  · cases hs : (calculate_conversation_quality msgs lt).is_sufficient with
    | false => simp
    | true =>
        simp only [Bool.true_eq_false, if_false]
        constructor
        · intro hq
          split at hq
          · cases hq
          · split at hq
            · cases hq
            · cases hq
        · intro hq
          cases hq
  · intro hs
    rw [hs]
    simp only [Bool.true_eq_false, if_false]
    by_cases h300 : 300 ≤ totalUserLen msgs
    · rw [if_pos h300]
      refine ⟨by simp [h300], ?_, ?_⟩
      · constructor
        · intro hq; cases hq
        · intro hq; omega
      · constructor
        · intro hq; cases hq
        · intro hq; omega
    · rw [if_neg h300]
      by_cases h200 : 200 ≤ totalUserLen msgs
      · rw [if_pos h200]
        refine ⟨?_, by simp [h200, h300]; omega, ?_⟩
        · constructor
          · intro hq; cases hq
          · intro hq; omega
        · constructor
          · intro hq; cases hq
          · intro hq; omega
      · rw [if_neg h200]
        refine ⟨?_, ?_, by simp; omega⟩
        · constructor
          · intro hq; cases hq
          · intro hq; omega
        · constructor
          · intro hq; cases hq
          · intro hq; omega

/-- Three 70-character user messages: total 210 characters, the C5 witness
conversation sits in the `good` band. -/
def msgsW5 : List Message :=
  [⟨1, 2, MessageRole.user, String.mk (List.replicate 70 'a'), none⟩,
   ⟨2, 2, MessageRole.user, String.mk (List.replicate 70 'b'), none⟩,
   ⟨3, 2, MessageRole.user, String.mk (List.replicate 70 'c'), none⟩]

theorem quality_level_characterization_witness :
    (calculate_conversation_quality msgsW5 "normal").quality_level = QualityLevel.GOOD := by
  have hni : hasImagesIn msgsW5 = false := by decide
  obtain ⟨hr1, hr2, hr3⟩ := normal_required_no_images msgsW5 hni
  have ht : totalUserLen msgsW5 = 210 := by decide
  have hc : userMsgCount msgsW5 = 3 := by decide
  have hs : (calculate_conversation_quality msgsW5 "normal").is_sufficient = true := by
    rw [is_sufficient_iff, hr1, hr2, hr3, hc, ht]
    refine ⟨by norm_num, by norm_num, ?_⟩
    unfold avgUserLen
    rw [hc, ht]
    norm_num
  exact (((quality_level_characterization msgsW5 "normal").2 hs).2.1).mpr
    ⟨by rw [ht]; norm_num, by rw [ht]; norm_num⟩

/-- Replace every message's image URL by NULL. -/
def stripImages (msgs : List Message) : List Message :=
  msgs.map (fun m => { m with image_url := none })

theorem hasImagesIn_stripImages (msgs : List Message) :
    hasImagesIn (stripImages msgs) = false := by
  rw [hasImagesIn, List.any_eq_false]
  intro m hm
  rw [userMessagesOf, List.mem_filter, stripImages, List.mem_map] at hm
  obtain ⟨⟨m0, _, rfl⟩, _⟩ := hm
  simp

/-- **C6.** Whenever some user message of the conversation carries an image,
the required message count equals the multiplier-adjusted count of the same
conversation without images, reduced by 1 with a floor of 1, while the
required total length and required average length coincide with the
image-free requirements. -/
theorem image_discount_on_required_messages (msgs : List Message) (lt : String)
    (himg : hasImagesIn msgs = true) :
    (calculate_conversation_quality msgs lt).required_messages
      = max 1 ((calculate_conversation_quality (stripImages msgs) lt).required_messages - 1)
    ∧ (calculate_conversation_quality msgs lt).required_total_length
      = (calculate_conversation_quality (stripImages msgs) lt).required_total_length
    ∧ (calculate_conversation_quality msgs lt).required_avg_length
      = (calculate_conversation_quality (stripImages msgs) lt).required_avg_length := by
  refine ⟨?_, by rw [calc_required_total, calc_required_total],
    by rw [calc_required_avg, calc_required_avg]⟩
  rw [calc_required_messages, calc_required_messages, himg,
    hasImagesIn_stripImages msgs]
  simp [QualityThresholds.IMAGE_MESSAGE_DISCOUNT]

/-- A conversation whose single user message carries an image: the C6
witness. -/
def msgsW6 : List Message :=
  [⟨1, 3, MessageRole.ai, "tell me about your day", none⟩,
   ⟨2, 3, MessageRole.user, "look at this photo", some "/storage/photo.jpg"⟩]

theorem image_discount_on_required_messages_witness :
    (calculate_conversation_quality msgsW6 "normal").required_messages
      = max 1 ((calculate_conversation_quality (stripImages msgsW6) "normal").required_messages - 1) :=
  (image_discount_on_required_messages msgsW6 "normal" (by decide)).1

/-! ## Conversation / diary state machine

Embedding of `ConversationService` (`app/diary/services/conversation.py`) and
`DiaryService.generate_diary` (`app/diary/services/diary.py`).  The database
session becomes an explicit `DBState`; primary keys are allocated from
counters; calendar dates and timestamps are abstracted to `Nat` (only
ordering and equality of dates matter to these claims).  Upstream AI calls
are oracle arguments; the AI-generated greeting text of
`start_conversation` (and its Korean date-dependent fallback strings) is
likewise passed in as the `greeting` argument, since no claim consults it. -/

/-- `ConversationStatus` enum (`app/models/diary.py`). -/
inductive ConversationStatus where
  | active
  | completed
  deriving DecidableEq

/-- Conversation row. -/
structure Conversation where
  id : Nat
  user_id : Nat
  entry_date : Nat
  status : ConversationStatus
  ended_at : Option Nat
  deriving DecidableEq

/-- `DiaryLengthType` enum (`app/models/diary.py`). -/
inductive DiaryLengthType where
  | summary
  | normal
  | detailed
  deriving DecidableEq

/-- The `DiaryLengthType[length_type]` enum-name lookup of `diary.py` line
146: `some` member for the three enum names, `none` for the `KeyError` any
other string raises. -/
def DiaryLengthType.ofName (s : String) : Option DiaryLengthType :=
  if s = "summary" then some DiaryLengthType.summary
  else if s = "normal" then some DiaryLengthType.normal
  else if s = "detailed" then some DiaryLengthType.detailed
  else none

/-- `DiaryEntry` row (`app/models/diary.py`), claim-relevant columns. -/
structure DiaryEntry where
  id : Nat
  user_id : Nat
  conversation_id : Option Nat
  title : String
  content : String
  entry_date : Nat
  length_type : DiaryLengthType
  mood : Option String
  summary : Option String
  deriving DecidableEq

/-- The database slice the diary services touch, plus id counters and a
clock for `datetime.utcnow()`. -/
structure DBState where
  conversations : List Conversation
  messages : List Message
  diaries : List DiaryEntry
  nextConvId : Nat
  nextMsgId : Nat
  nextDiaryId : Nat
  now : Nat
  deriving DecidableEq

/-- Domain and HTTP errors raised by the two services; the three
httpx-failure translations (504/500/503) are collapsed into one constructor
since no claim distinguishes them. -/
inductive AppError where
  | futureDiaryNotAllowed (entry_date today : Nat)
  | conversationNotFoundHttp
  | conversationNotActive
  | aiServiceFailure
  | conversationNotFound (conversation_id : Nat)
  | conversationNoMessages (conversation_id : Nat)
  | insufficientConversation (conversation_id user_message_count required_messages
      total_content_length required_length : Nat) (feedback : String)
  | invalidLengthType (length_type : String)
  deriving DecidableEq

/-- `select(Message).where(Message.conversation_id == ..)` ordered by
creation: list order is insertion order. -/
def messagesOf (st : DBState) (cid : Nat) : List Message :=
  st.messages.filter (fun m => m.conversation_id == cid)

/-- `ConversationService.get_conversation`: id and owner must match. -/
def findConversation (st : DBState) (cid uid : Nat) : Option Conversation :=
  st.conversations.find? (fun c => c.id == cid && c.user_id == uid)

/-- Status of the conversation with the given id, when it exists. -/
def statusOf (st : DBState) (cid : Nat) : Option ConversationStatus :=
  (st.conversations.find? (fun c => c.id == cid)).map (fun c => c.status)

/-- `ConversationService.start_conversation` as in the source: validate the
entry date against the client's current date, then unconditionally create a
fresh active conversation and its initial AI message.  (The source has no
`force_new` parameter and performs no lookup of an existing active
conversation — see the C2 analysis.) -/
def start_conversation (st : DBState) (uid entry_date today : Nat)
    (greeting : String) : DBState × Except AppError (Nat × Nat) :=
  if today < entry_date then
    (st, .error (.futureDiaryNotAllowed entry_date today))
  else
    ({ st with
        conversations := st.conversations
          ++ [⟨st.nextConvId, uid, entry_date, ConversationStatus.active, none⟩],
        messages := st.messages
          ++ [⟨st.nextMsgId, st.nextConvId, MessageRole.ai, greeting, none⟩],
        nextConvId := st.nextConvId + 1,
        nextMsgId := st.nextMsgId + 1 },
      .ok (st.nextConvId, st.nextMsgId))

/-- `ConversationService.send_message`: require the conversation to exist and
be active, persist the user message, recompute quality (returned with the
response, no state effect), call the AI (failure propagates after the user
message was committed), persist the AI reply. -/
def send_message (st : DBState) (cid uid : Nat) (content : String)
    (image_url : Option String) (aiResp : Except Unit String) :
    DBState × Except AppError Nat :=
  match findConversation st cid uid with
  | none => (st, .error .conversationNotFoundHttp)
  | some conv =>
      if conv.status ≠ ConversationStatus.active then
        (st, .error .conversationNotActive)
      else
        let st1 := { st with
          messages := st.messages
            ++ [⟨st.nextMsgId, cid, MessageRole.user, content, image_url⟩],
          nextMsgId := st.nextMsgId + 1 }
        match aiResp with
        | .error _ => (st1, .error .aiServiceFailure)
        | .ok text =>
            ({ st1 with
                messages := st1.messages
                  ++ [⟨st1.nextMsgId, cid, MessageRole.ai, text, none⟩],
                nextMsgId := st1.nextMsgId + 1 },
              .ok st1.nextMsgId)

/-- The row mutation of `complete_conversation`: `conversation.status =
completed; conversation.ended_at = datetime.utcnow()` on the found row. -/
def completeUpdate (cid uid now : Nat) (c : Conversation) : Conversation :=
  if c.id == cid && c.user_id == uid then
    { c with status := ConversationStatus.completed, ended_at := some now }
  else c

/-- `ConversationService.complete_conversation`: mark the found conversation
completed and stamp `ended_at = utcnow()`. -/
def complete_conversation (st : DBState) (cid uid : Nat) :
    DBState × Except AppError Unit :=
  match findConversation st cid uid with
  | none => (st, .error .conversationNotFoundHttp)
  | some _ =>
      ({ st with conversations := st.conversations.map (completeUpdate cid uid st.now) },
        .ok ())

/-- Outcomes of the three AI calls `generate_diary` makes. -/
structure DiaryOracle where
  content : Except Unit String
  mood : Except Unit String
  summary : Except Unit String

/-- `DiaryService._generate_mood_analysis`: `result["text"].strip()` on
success, the literal `"중립"` on any exception. -/
def moodOrDefault (r : Except Unit String) : String :=
  match r with
  | .ok t => t.trim
  | .error _ => "중립"

/-- `DiaryService._generate_summary`: `result["text"].strip()` on success,
`None` on any exception. -/
def summaryOrDefault (r : Except Unit String) : Option String :=
  match r with
  | .ok t => some t.trim
  | .error _ => none

/-- The row mutation of `generate_diary`'s final step: `conversation.status =
completed` on the found row (this path does not stamp `ended_at`). -/
def generateUpdate (cid uid : Nat) (c : Conversation) : Conversation :=
  if c.id == cid && c.user_id == uid then
    { c with status := ConversationStatus.completed }
  else c

/-- `DiaryService.generate_diary`: find the conversation, require messages,
require sufficient quality for the requested length type, generate content
(failure aborts), derive mood and summary with their independent fallbacks,
then construct the entry — at which point `DiaryLengthType[length_type]`
raises `KeyError` for a string outside the enum (`diary.py` line 146; the
request schema does not validate it), escaping as an unhandled exception
with nothing persisted — persist the entry and mark the conversation
completed (status only; this path does not stamp `ended_at`). -/
def generate_diary (st : DBState) (uid cid : Nat) (title length_type : String)
    (oracle : DiaryOracle) : DBState × Except AppError Nat :=
  match findConversation st cid uid with
  | none => (st, .error (.conversationNotFound cid))
  | some conv =>
      if messagesOf st cid = [] then
        (st, .error (.conversationNoMessages cid))
      else
        let quality := calculate_conversation_quality (messagesOf st cid) length_type
        if quality.is_sufficient = false then
          (st, .error (.insufficientConversation cid quality.user_message_count
            quality.required_messages quality.total_user_content_length
            quality.required_total_length quality.feedback_message))
        else
          match oracle.content with
          | .error _ => (st, .error .aiServiceFailure)
          | .ok diary_content =>
              match DiaryLengthType.ofName length_type with
              | none => (st, .error (.invalidLengthType length_type))
              | some ltEnum =>
                  ({ st with
                      diaries := st.diaries ++ [⟨st.nextDiaryId, uid, some cid, title,
                        diary_content, conv.entry_date, ltEnum,
                        some (moodOrDefault oracle.mood), summaryOrDefault oracle.summary⟩],
                      nextDiaryId := st.nextDiaryId + 1,
                      conversations := st.conversations.map (generateUpdate cid uid) },
                    .ok st.nextDiaryId)

/-! ## Translation service -/

/-- The `{"text": .., "model": ..}` contract of the internal AI gateway. -/
structure AIResult where
  text : String
  model : String
  deriving DecidableEq

/-- Result dict of `TranslationService.translate`. -/
structure TranslationResult where
  translated_text : String
  model : String
  raw_response : String
  deriving DecidableEq

/-- All exception paths of `translate` re-raise as `ValueError`. -/
inductive TranslationError where
  | valueError
  deriving DecidableEq

/-- `TranslationService.translate` (`app/translation/services/translator.py`).
`oracle` is the outcome of `call_ai_service`; `parse` stands for
`_parse_translation_response` (JSON / regex extraction, kept as a parameter
— only the fact that it is never reached on the same-language path matters
to the claims). -/
def translate (oracle : Except Unit AIResult) (parse : String → Except Unit String)
    (text source_lang target_lang provider : String) (model : Option String) :
    Except TranslationError TranslationResult :=
  if source_lang = target_lang then
    .ok ⟨text, "none", text⟩
  else
    match oracle with
    | .error _ => .error .valueError
    | .ok r =>
        match parse r.text with
        | .ok t => .ok ⟨t, r.model, r.text⟩
        | .error _ => .error .valueError

/-- **C8.** A same-language translation request returns the input text
unchanged with model `"none"`; the result is the same for every AI oracle
and every parser — the upstream provider is never consulted. -/
theorem translate_same_language (oracle : Except Unit AIResult)
    (parse : String → Except Unit String) (text lang provider : String)
    (model : Option String) :
    translate oracle parse text lang lang provider model
      = .ok ⟨text, "none", text⟩ := by
  unfold translate
  rw [if_pos rfl]

/-! ## C2: the force_new / idempotent-start rule is absent from the service

The repo's own tests
(`tests/test_diary/test_conversation_service.py`) assert that
`start_conversation` returns an existing active conversation unchanged and
that `force_new=True` completes it first, and the router
(`app/diary/routers/conversation.py`) passes `force_new=request.force_new` —
but the service method has no such parameter and never looks up an existing
active conversation: it unconditionally inserts a new active one.  The
theorem below evaluates the embedded source at the failing input. -/

/-- Failing input for C2: user 1 already has an active conversation (id 101)
for date 15. -/
def stW2 : DBState :=
  { conversations := [⟨101, 1, 15, ConversationStatus.active, none⟩]
    messages := [⟨202, 101, MessageRole.ai, "Welcome back!", none⟩]
    diaries := []
    nextConvId := 102
    nextMsgId := 203
    nextDiaryId := 1
    now := 0 }

/-- **C2 (exhibit).** Run on a state that already holds an active
conversation for (user 1, date 15), the source's `start_conversation`
creates a second conversation (id 102) instead of returning the existing one
unchanged: afterwards two active conversations exist for that user and
date.  This contradicts the claimed idempotent start, and the claimed
`force_new` branch does not exist in the service at all. -/
theorem start_conversation_duplicates_active :
    (start_conversation stW2 1 15 15 "hello").2 = Except.ok (102, 203)
    ∧ ((start_conversation stW2 1 15 15 "hello").1.conversations.filter
        (fun c => c.user_id == 1 && c.entry_date == 15
          && decide (c.status = ConversationStatus.active))).length = 2
    ∧ (start_conversation stW2 1 15 15 "hello").1.conversations.length = 2 := by
  refine ⟨rfl, ?_, rfl⟩
  decide

/-! ## C4 / C7: diary generation -/

/-- **C4.** On a found conversation with at least one message whose quality
for the requested length type is insufficient, `generate_diary` raises
INSUFFICIENT_CONVERSATION whose details carry the measured user message
count and total content length together with the required message count and
required length (plus the feedback string); the returned state is the input
state unchanged — no diary entry is persisted and the conversation's status
is untouched. -/
theorem generate_diary_insufficient_rejected (st : DBState) (uid cid : Nat)
    (title lt : String) (oracle : DiaryOracle) (conv : Conversation)
    (hconv : findConversation st cid uid = some conv)
    (hmsgs : messagesOf st cid ≠ [])
    (hq : (calculate_conversation_quality (messagesOf st cid) lt).is_sufficient
      = false) :
    generate_diary st uid cid title lt oracle
      = (st, .error (.insufficientConversation cid
          (calculate_conversation_quality (messagesOf st cid) lt).user_message_count
          (calculate_conversation_quality (messagesOf st cid) lt).required_messages
          (calculate_conversation_quality (messagesOf st cid) lt).total_user_content_length
          (calculate_conversation_quality (messagesOf st cid) lt).required_total_length
          (calculate_conversation_quality (messagesOf st cid) lt).feedback_message)) := by
  unfold generate_diary
  rw [hconv]
  dsimp only []
  rw [if_neg hmsgs, if_pos hq]

/-- Failing-quality input for the C4 witness: two short user messages. -/
def stW4 : DBState :=
  { conversations := [⟨1, 1, 10, ConversationStatus.active, none⟩]
    messages := [⟨1, 1, MessageRole.user, "short one", none⟩,
                 ⟨2, 1, MessageRole.user, "short two", none⟩]
    diaries := []
    nextConvId := 2
    nextMsgId := 3
    nextDiaryId := 1
    now := 0 }

theorem generate_diary_insufficient_rejected_witness :
    generate_diary stW4 1 1 "오늘의 일기" "normal" ⟨.ok "d", .ok "m", .ok "s"⟩
      = (stW4, .error (.insufficientConversation 1
          (calculate_conversation_quality (messagesOf stW4 1) "normal").user_message_count
          (calculate_conversation_quality (messagesOf stW4 1) "normal").required_messages
          (calculate_conversation_quality (messagesOf stW4 1) "normal").total_user_content_length
          (calculate_conversation_quality (messagesOf stW4 1) "normal").required_total_length
          (calculate_conversation_quality (messagesOf stW4 1) "normal").feedback_message)) := by
  have hni : hasImagesIn (messagesOf stW4 1) = false := by decide
  obtain ⟨hr1, _, _⟩ := normal_required_no_images (messagesOf stW4 1) hni
  have hc : userMsgCount (messagesOf stW4 1) = 2 := by decide
  have hq : (calculate_conversation_quality (messagesOf stW4 1) "normal").is_sufficient
      = false := by
    rw [calc_is_sufficient, hr1, hc]
    simp
  exact generate_diary_insufficient_rejected stW4 1 1 "오늘의 일기" "normal"
    ⟨.ok "d", .ok "m", .ok "s"⟩ ⟨1, 1, 10, ConversationStatus.active, none⟩
    rfl (by decide) hq

/-- Shared shape of the success path of `generate_diary` with the diary
content call succeeding, a length type the `DiaryLengthType` lookup accepts,
and arbitrary mood / summary outcomes. -/
theorem generate_diary_success_eq (st : DBState) (uid cid : Nat)
    (title lt content : String) (moodRes sumRes : Except Unit String)
    (conv : Conversation) (ltEnum : DiaryLengthType)
    (hconv : findConversation st cid uid = some conv)
    (hmsgs : messagesOf st cid ≠ [])
    (hq : (calculate_conversation_quality (messagesOf st cid) lt).is_sufficient
      = true)
    (hlt : DiaryLengthType.ofName lt = some ltEnum) :
    generate_diary st uid cid title lt ⟨.ok content, moodRes, sumRes⟩
      = ({ st with
            diaries := st.diaries ++ [⟨st.nextDiaryId, uid, some cid, title, content,
              conv.entry_date, ltEnum, some (moodOrDefault moodRes),
              summaryOrDefault sumRes⟩],
            nextDiaryId := st.nextDiaryId + 1,
            conversations := st.conversations.map (generateUpdate cid uid) },
          .ok st.nextDiaryId) := by
  have hq' : ¬ (calculate_conversation_quality (messagesOf st cid) lt).is_sufficient
      = false := by simp [hq]
  unfold generate_diary
  rw [hconv]
  dsimp only []
  rw [if_neg hmsgs, if_neg hq', hlt]

/-- Quality-sufficient input shared by the C7 artifacts: three 20-character
user messages. -/
def stW7 : DBState :=
  { conversations := [⟨1, 1, 10, ConversationStatus.active, none⟩]
    messages := [⟨1, 1, MessageRole.user, "aaaaaaaaaaaaaaaaaaaa", none⟩,
                 ⟨2, 1, MessageRole.user, "bbbbbbbbbbbbbbbbbbbb", none⟩,
                 ⟨3, 1, MessageRole.user, "cccccccccccccccccccc", none⟩]
    diaries := []
    nextConvId := 2
    nextMsgId := 4
    nextDiaryId := 1
    now := 0 }

theorem stW7_sufficient :
    (calculate_conversation_quality (messagesOf stW7 1) "normal").is_sufficient
      = true := by
  have hni : hasImagesIn (messagesOf stW7 1) = false := by decide
  obtain ⟨hr1, hr2, hr3⟩ := normal_required_no_images (messagesOf stW7 1) hni
  have hc : userMsgCount (messagesOf stW7 1) = 3 := by decide
  have ht : totalUserLen (messagesOf stW7 1) = 60 := by decide
  rw [is_sufficient_iff, hr1, hr2, hr3]
  refine ⟨by rw [hc], by rw [ht]; norm_num, ?_⟩
  unfold avgUserLen
  rw [hc, ht]
  norm_num

/-- **C7 (counterexample).** When the mood call fails, the persisted entry's
mood is the literal `"중립"` (the Korean word for neutral), not the string
`"neutral"` the claim names — while generation still succeeds. -/
theorem mood_default_not_english_neutral :
    ((generate_diary stW7 1 1 "title" "normal"
        ⟨.ok "diary content", .error (), .ok "sum"⟩).1.diaries.map (fun d => d.mood))
      = [some "중립"]
    ∧ "중립" ≠ "neutral"
    ∧ (generate_diary stW7 1 1 "title" "normal"
        ⟨.ok "diary content", .error (), .ok "sum"⟩).2 = .ok 1 := by
  rw [generate_diary_success_eq stW7 1 1 "title" "normal" "diary content"
    (.error ()) (.ok "sum") ⟨1, 1, 10, ConversationStatus.active, none⟩
    DiaryLengthType.normal rfl (by decide) stW7_sufficient rfl]
  exact ⟨rfl, by decide, rfl⟩

/-- **C7 (amended).** During diary generation (on a request whose
`length_type` the `DiaryLengthType` lookup accepts, so that the unrelated
`KeyError` of `diary.py` line 146 does not fire) the mood and the summary
calls are absorbed independently: the persisted mood is a function of the
mood outcome alone (its `.strip()`ped text on success, the literal `"중립"`
— Korean for neutral — on failure), the persisted summary is a function of
the summary outcome alone (`.strip()`ped text on success, NULL on failure),
and in every combination diary generation as a whole succeeds. -/
theorem mood_summary_failures_absorbed (st : DBState) (uid cid : Nat)
    (title lt content : String) (moodRes sumRes : Except Unit String)
    (conv : Conversation) (ltEnum : DiaryLengthType)
    (hconv : findConversation st cid uid = some conv)
    (hmsgs : messagesOf st cid ≠ [])
    (hq : (calculate_conversation_quality (messagesOf st cid) lt).is_sufficient
      = true)
    (hlt : DiaryLengthType.ofName lt = some ltEnum) :
    (generate_diary st uid cid title lt ⟨.ok content, moodRes, sumRes⟩).2
        = .ok st.nextDiaryId
    ∧ (generate_diary st uid cid title lt ⟨.ok content, moodRes, sumRes⟩).1.diaries
        = st.diaries ++ [⟨st.nextDiaryId, uid, some cid, title, content,
            conv.entry_date, ltEnum, some (moodOrDefault moodRes),
            summaryOrDefault sumRes⟩]
    ∧ moodOrDefault (.error ()) = "중립"
    ∧ summaryOrDefault (.error ()) = none := by
  rw [generate_diary_success_eq st uid cid title lt content moodRes sumRes conv
    ltEnum hconv hmsgs hq hlt]
  exact ⟨rfl, rfl, rfl, rfl⟩

theorem mood_summary_failures_absorbed_witness :
    (generate_diary stW7 1 1 "나의 하루" "normal" ⟨.ok "일기", .error (), .error ()⟩).2
        = .ok 1
    ∧ (generate_diary stW7 1 1 "나의 하루" "normal"
        ⟨.ok "일기", .error (), .error ()⟩).1.diaries
      = [⟨1, 1, some 1, "나의 하루", "일기", 10, DiaryLengthType.normal,
          some "중립", none⟩] := by
  obtain ⟨h1, h2, h3, h4⟩ := mood_summary_failures_absorbed stW7 1 1 "나의 하루"
    "normal" "일기" (.error ()) (.error ()) ⟨1, 1, 10, ConversationStatus.active, none⟩
    DiaryLengthType.normal rfl (by decide) stW7_sufficient rfl
  exact ⟨h1, h2⟩

/-! ## C9: conversation status is one-way -/

/-- One request against the conversation / diary services, with the oracle
outcomes it observed. -/
inductive Op where
  | start (uid entry_date today : Nat) (greeting : String)
  | send (cid uid : Nat) (content : String) (image_url : Option String)
      (aiResp : Except Unit String)
  | complete (cid uid : Nat)
  | generate (uid cid : Nat) (title length_type : String) (oracle : DiaryOracle)

/-- The state component of running one operation. -/
def applyOp (st : DBState) (op : Op) : DBState :=
  match op with
  | .start uid d t g => (start_conversation st uid d t g).1
  | .send cid uid c i a => (send_message st cid uid c i a).1
  | .complete cid uid => (complete_conversation st cid uid).1
  | .generate uid cid t lt o => (generate_diary st uid cid t lt o).1

theorem find?_append_of_some {α : Type} (l l' : List α) (p : α → Bool) (a : α)
    (h : l.find? p = some a) : (l ++ l').find? p = some a := by
  induction l with
  | nil => exact Option.noConfusion h
  | cons x xs ih =>
      rw [List.cons_append]
      cases hx : p x with
      | true =>
          rw [List.find?_cons_of_pos _ hx] at h
          rw [List.find?_cons_of_pos _ hx]
          exact h
      | false =>
          rw [List.find?_cons_of_neg _ (by simp [hx])] at h
          rw [List.find?_cons_of_neg _ (by simp [hx])]
          exact ih h

theorem find?_id_map (l : List Conversation) (f : Conversation → Conversation)
    (hid : ∀ c, (f c).id = c.id) (cid : Nat) :
    (l.map f).find? (fun c => c.id == cid)
      = (l.find? (fun c => c.id == cid)).map f := by
  induction l with
  | nil => rfl
  | cons c cs ih =>
      simp only [List.map_cons, List.find?]
      rw [hid c]
      cases hx : (c.id == cid) <;> simp [hx, ih]

theorem statusOf_eq_some (st : DBState) (cid : Nat) (s : ConversationStatus)
    (h : statusOf st cid = some s) :
    ∃ c, st.conversations.find? (fun c => c.id == cid) = some c ∧ c.status = s := by
  unfold statusOf at h
  cases hf : st.conversations.find? (fun c => c.id == cid) with
  | none => rw [hf] at h; simp at h
  | some c =>
      rw [hf] at h
      simp only [Option.map_some', Option.some.injEq] at h
      exact ⟨c, rfl, h⟩

theorem statusOf_map_update (l : List Conversation) (f : Conversation → Conversation)
    (hid : ∀ c, (f c).id = c.id)
    (hst : ∀ c, (f c).status = c.status
      ∨ (f c).status = ConversationStatus.completed)
    (cid : Nat) (s : ConversationStatus)
    (h : (l.find? (fun c => c.id == cid)).map (fun c => c.status) = some s) :
    ((l.map f).find? (fun c => c.id == cid)).map (fun c => c.status) = some s
    ∨ (s = ConversationStatus.active
        ∧ ((l.map f).find? (fun c => c.id == cid)).map (fun c => c.status)
            = some ConversationStatus.completed) := by
  rw [find?_id_map l f hid]
  cases hf : l.find? (fun c => c.id == cid) with
  | none => rw [hf] at h; simp at h
  | some c =>
      rw [hf] at h
      simp only [Option.map_some', Option.some.injEq] at h ⊢
      cases hst c with
      | inl he =>
          left
          rw [he]
          exact h
      | inr hc =>
          cases hcs : c.status with
          | active =>
              right
              exact ⟨by rw [← h, hcs], hc⟩
          | completed =>
              left
              rw [hc, ← h, hcs]

theorem send_message_conversations (st : DBState) (cid uid : Nat)
    (content : String) (img : Option String) (ai : Except Unit String) :
    (send_message st cid uid content img ai).1.conversations
      = st.conversations := by
  unfold send_message
  cases findConversation st cid uid with
  | none => rfl
  | some conv =>
      dsimp only []
      split
      · rfl
      · cases ai with
        | error e => rfl
        | ok t => rfl

theorem completeUpdate_id (cid uid now : Nat) (c : Conversation) :
    (completeUpdate cid uid now c).id = c.id := by
  unfold completeUpdate
  split <;> rfl

theorem completeUpdate_status (cid uid now : Nat) (c : Conversation) :
    (completeUpdate cid uid now c).status = c.status
    ∨ (completeUpdate cid uid now c).status = ConversationStatus.completed := by
  unfold completeUpdate
  split
  · right; rfl
  · left; rfl

theorem generateUpdate_id (cid uid : Nat) (c : Conversation) :
    (generateUpdate cid uid c).id = c.id := by
  unfold generateUpdate
  split <;> rfl

theorem generateUpdate_status (cid uid : Nat) (c : Conversation) :
    (generateUpdate cid uid c).status = c.status
    ∨ (generateUpdate cid uid c).status = ConversationStatus.completed := by
  unfold generateUpdate
  split
  · right; rfl
  · left; rfl

/-- Single-step preservation: any operation leaves a conversation's status
unchanged or moves it from active to completed. -/
theorem applyOp_status_step (st : DBState) (op : Op) (cid : Nat)
    (s : ConversationStatus) (h : statusOf st cid = some s) :
    statusOf (applyOp st op) cid = some s
    ∨ (s = ConversationStatus.active
        ∧ statusOf (applyOp st op) cid = some ConversationStatus.completed) := by
  obtain ⟨c0, hf0, hs0⟩ := statusOf_eq_some st cid s h
  cases op with
  | start uid d t g =>
      left
      unfold applyOp start_conversation
      dsimp only []
      by_cases hd : t < d
      · rw [if_pos hd]
        exact h
      · rw [if_neg hd]
        show ((st.conversations
            ++ [(⟨st.nextConvId, uid, d, ConversationStatus.active, none⟩ :
                  Conversation)]).find?
              (fun c => c.id == cid)).map (fun c => c.status) = some s
        rw [find?_append_of_some _ _ _ c0 hf0]
        rw [Option.map_some', hs0]
  | send cid' uid content img ai =>
      left
      show ((send_message st cid' uid content img ai).1.conversations.find?
          (fun c => c.id == cid)).map (fun c => c.status) = some s
      rw [send_message_conversations]
      exact h
  | complete cid' uid =>
      unfold applyOp complete_conversation
      dsimp only []
      cases hfc : findConversation st cid' uid with
      | none => left; exact h
      | some cc =>
          exact statusOf_map_update st.conversations (completeUpdate cid' uid st.now)
            (completeUpdate_id cid' uid st.now) (completeUpdate_status cid' uid st.now)
            cid s h
  | generate uid cid' title lt oracle =>
      unfold applyOp generate_diary
      dsimp only []
      cases hfc : findConversation st cid' uid with
      | none => left; exact h
      | some cc =>
          dsimp only []
          split
          · left; exact h
          · split
            · left; exact h
            · cases hco : oracle.content with
              | error e => left; exact h
              | ok txt =>
                  cases hofn : DiaryLengthType.ofName lt with
                  | none => left; exact h
                  | some ltEnum =>
                      exact statusOf_map_update st.conversations
                        (generateUpdate cid' uid) (generateUpdate_id cid' uid)
                        (generateUpdate_status cid' uid) cid s h

theorem completed_absorbing (ops : List Op) (st : DBState) (cid : Nat)
    (h : statusOf st cid = some ConversationStatus.completed) :
    statusOf (ops.foldl applyOp st) cid = some ConversationStatus.completed := by
  induction ops generalizing st with
  | nil => exact h
  | cons op rest ih =>
      rw [List.foldl_cons]
      apply ih
      cases applyOp_status_step st op cid ConversationStatus.completed h with
      | inl he => exact he
      | inr hr => exact absurd hr.1 (by decide)

/-- **C9.** Across the conversation operations (start, send message,
complete, diary generation) a conversation's status moves only from active
to completed: every single step either preserves the status or performs the
active → completed transition, and once completed a conversation stays
completed under any sequence of operations. -/
theorem conversation_status_one_way :
    (∀ (st : DBState) (op : Op) (cid : Nat) (s : ConversationStatus),
        statusOf st cid = some s →
        statusOf (applyOp st op) cid = some s
        ∨ (s = ConversationStatus.active
            ∧ statusOf (applyOp st op) cid = some ConversationStatus.completed))
    ∧ (∀ (ops : List Op) (st : DBState) (cid : Nat),
        statusOf st cid = some ConversationStatus.completed →
        statusOf (ops.foldl applyOp st) cid = some ConversationStatus.completed) :=
  ⟨applyOp_status_step, completed_absorbing⟩

/-- A completed conversation (id 5) for the C9 witness. -/
def stW9 : DBState :=
  { conversations := [⟨5, 2, 20, ConversationStatus.completed, some 7⟩]
    messages := []
    diaries := []
    nextConvId := 6
    nextMsgId := 1
    nextDiaryId := 1
    now := 8 }

/-- Operations hitting conversation 5 every way the API allows. -/
def opsW9 : List Op :=
  [Op.start 2 20 20 "hi",
   Op.send 5 2 "hello" none (.ok "reply"),
   Op.complete 5 2,
   Op.generate 2 5 "title" "normal" ⟨.ok "c", .ok "m", .ok "s"⟩]

theorem conversation_status_one_way_witness :
    statusOf (opsW9.foldl applyOp stW9) 5 = some ConversationStatus.completed
    ∧ (statusOf (applyOp stW9 (Op.complete 5 2)) 5
          = some ConversationStatus.completed
        ∨ (ConversationStatus.completed = ConversationStatus.active
            ∧ statusOf (applyOp stW9 (Op.complete 5 2)) 5
                = some ConversationStatus.completed)) :=
  ⟨conversation_status_one_way.2 opsW9 stW9 5 rfl,
   conversation_status_one_way.1 stW9 (Op.complete 5 2) 5
     ConversationStatus.completed rfl⟩

end Overmind
